import Mathlib

/-!
Verification of the cross-flow filtration simulator (core.py).

Shallow embedding conventions:
* Python floats are modelled as real numbers; the float power operator is
  modelled by Real.rpow.
* A timedelta is modelled by its total number of seconds, a real number.
* A Python function that can raise is modelled as Except SimError returning
  either the value or the error kind raised.  The spec-level error taxonomy is
  used for the kinds: OutOfRange stands for the ValueError raised by
  validate_parameter, MissingInput for the NotImplementedError raised by
  SimplifiedResistanceModel.calculate_resistance when the time argument is
  absent.
* The unbounded while loop of run_simulation is modelled with explicit fuel:
  runSimAux returns none exactly when the loop has not exited within the
  given number of iterations, so the real loop terminates iff some fuel
  yields a some result.  Two variants are given: run_simulation, which is
  total in the way Lean division is (the unguarded concentration update
  values division by zero at 0 where Python raises ZeroDivisionError), and
  run_simulation_ex, which keeps that error path and exits with a distinct
  ZeroDivisionError outcome exactly when the updated hold-up volume is zero.
  Theorems whose meaning rests on the error path use run_simulation_ex.
-/

open Classical

/-- Error kinds raised by the code.  outOfRange carries the parameter name,
as the ValueError message in validate_parameter does. -/
inductive SimError where
| outOfRange (param_name : String) : SimError
| missingInput : SimError

/-- A min/max pair, modelling the namedtuples MWCORange, TMPRange and
ConcentrationFactorRange of core.py. -/
structure RangePair where
  min : ℝ
  max : ℝ

/-- TYPICAL_RANGES, entry MWCO: (1_000, 500_000) Da. -/
noncomputable def TYPICAL_RANGES_MWCO : RangePair := ⟨1000, 500000⟩

/-- TYPICAL_RANGES, entry TMP: (50_000, 700_000) Pa. -/
noncomputable def TYPICAL_RANGES_TMP : RangePair := ⟨50000, 700000⟩

/-- TYPICAL_RANGES, entry Concentration_factor: (2, 20). -/
noncomputable def TYPICAL_RANGES_Concentration_factor : RangePair := ⟨2, 20⟩

/-- CASEIN_MOLECULAR_WEIGHT = 25107.0 Da. -/
noncomputable def CASEIN_MOLECULAR_WEIGHT : ℝ := 25107.0

/-- ONE_HOUR = timedelta(hours=1), as seconds. -/
noncomputable def ONE_HOUR : ℝ := 3600

/-- DEFAULT_TIME_STEP = ONE_HOUR. -/
noncomputable def DEFAULT_TIME_STEP : ℝ := ONE_HOUR

/-- validate_parameter(param_name, value, positive, min_value, max_value):
raises ValueError (modelled .outOfRange param_name) when positive is requested
and value <= 0, when min_value is given and value < min_value, or when
max_value is given and value > max_value; otherwise returns value unchanged. -/
noncomputable def validate_parameter (param_name : String) (value : ℝ)
    (positive : Bool) (min_value : Option ℝ) (max_value : Option ℝ) :
    Except SimError ℝ :=
  if positive = true ∧ value ≤ 0 then Except.error (SimError.outOfRange param_name)
  else if (match min_value with | some mn => value < mn | none => False) then
    Except.error (SimError.outOfRange param_name)
  else if (match max_value with | some mx => mx < value | none => False) then
    Except.error (SimError.outOfRange param_name)
  else Except.ok value

namespace SimplifiedResistanceModel

/-- TIME_COEFFICIENT_A = 0.13e12. -/
noncomputable def TIME_COEFFICIENT_A : ℝ := 0.13e12

/-- TIME_COEFFICIENT_B = 1.51e12. -/
noncomputable def TIME_COEFFICIENT_B : ℝ := 1.51e12

/-- TIME_EXPONENT = 0.4. -/
noncomputable def TIME_EXPONENT : ℝ := 0.4

/-- SimplifiedResistanceModel.calculate_resistance(time): if time is not None,
returns A + B * time.total_seconds()**0.4; otherwise raises
NotImplementedError, the MissingInput condition of the spec. -/
noncomputable def calculate_resistance (time : Option ℝ) : Except SimError ℝ :=
  match time with
  | some t => Except.ok (TIME_COEFFICIENT_A + TIME_COEFFICIENT_B * t ^ TIME_EXPONENT)
  | none => Except.error SimError.missingInput

end SimplifiedResistanceModel

/-- The resistance function computed by SimplifiedResistanceModel when the
time argument is supplied, as it always is inside the simulation loop. -/
noncomputable def simplifiedResistance (t : ℝ) : ℝ :=
  SimplifiedResistanceModel.TIME_COEFFICIENT_A +
    SimplifiedResistanceModel.TIME_COEFFICIENT_B * t ^ SimplifiedResistanceModel.TIME_EXPONENT

/-- WaterViscosityModel.WATER_VISCOSITY = 0.001; calculate_viscosity returns it. -/
noncomputable def WATER_VISCOSITY : ℝ := 0.001

/-- MaxSimulationTimeTermination(max_time).check_termination(t) is
t >= max_time. -/
def MaxSimulationTimeTermination (max_time : ℝ) : ℝ → Prop :=
  fun current_running_time => current_running_time ≥ max_time

/-- CompletedSimulation record: final permeate volume, final retentate
volume, final concentration, total time. -/
structure CompletedSimulation where
  final_permeate_volume : ℝ
  final_retentate_volume : ℝ
  final_concentration : ℝ
  time : ℝ

/-- The fields of a CrossFlowFiltrationModel after __init__ has run.  The
resistance model is a function of elapsed seconds (the loop always supplies
the time) and the viscosity model a constant, both installed by the
constructor from its defaults SimplifiedResistanceModel and
WaterViscosityModel.  The termination criterion is an optional predicate on
elapsed seconds. -/
structure CrossFlowFiltrationModel where
  initial_volume : ℝ
  initial_concentration : ℝ
  tmp : ℝ
  membrane_area : ℝ
  mwco : ℝ
  concentration_factor : ℝ
  termination_criteria : Option (ℝ → Prop)
  resistance_model : ℝ → ℝ
  viscosity_model : ℝ

namespace CrossFlowFiltrationModel

/-- CrossFlowFiltrationModel.__init__: validates volume and concentration
(positive), tmp, mwco and concentration_factor (typical ranges), then stores
the fields.  membrane_area is stored without any validate_parameter call, as
on line 144 of core.py.  The default resistance and viscosity models are
installed. -/
noncomputable def init (volume concentration tmp membrane_area mwco concentration_factor : ℝ)
    (termination_criteria : Option (ℝ → Prop)) :
    Except SimError CrossFlowFiltrationModel :=
  (validate_parameter ("Volume") volume true none none).bind (fun v =>
  (validate_parameter ("Concentration") concentration true none none).bind (fun c =>
  (validate_parameter ("TMP") tmp false (some TYPICAL_RANGES_TMP.min)
      (some TYPICAL_RANGES_TMP.max)).bind (fun t =>
  (validate_parameter ("MWCO") mwco false (some TYPICAL_RANGES_MWCO.min)
      (some TYPICAL_RANGES_MWCO.max)).bind (fun mw =>
  (validate_parameter ("Concentration factor") concentration_factor false
      (some TYPICAL_RANGES_Concentration_factor.min)
      (some TYPICAL_RANGES_Concentration_factor.max)).bind (fun f =>
  Except.ok ⟨v, c, t, membrane_area, mw, f, termination_criteria,
    simplifiedResistance, WATER_VISCOSITY⟩)))))

/-- calculate_flux(time) = tmp / (viscosity * resistance(time)). -/
noncomputable def calculate_flux (m : CrossFlowFiltrationModel) (time : ℝ) : ℝ :=
  m.tmp / (m.viscosity_model * m.resistance_model time)

/-- calculate_permeate_flow_rate(time) = flux * membrane_area. -/
noncomputable def calculate_permeate_flow_rate (m : CrossFlowFiltrationModel) (time : ℝ) : ℝ :=
  m.calculate_flux time * m.membrane_area

/-- current_concentration(current_volume) = initial_volume / current_volume,
with no guard on current_volume; in Lean division by zero returns 0 where
Python would raise ZeroDivisionError, and both silently return a negative
number for a negative current_volume. -/
noncomputable def current_concentration (m : CrossFlowFiltrationModel) (current_volume : ℝ) : ℝ :=
  m.initial_volume / current_volume

end CrossFlowFiltrationModel

/-- The loop-local state of run_simulation. -/
structure SimState where
  current_permeate_volume : ℝ
  current_hold_up_volume : ℝ
  current_running_time : ℝ
  current_concentration : ℝ

/-- The state just before the first loop iteration: hold-up volume equals the
initial volume, everything else zero (concentration 0 means not yet
computed). -/
noncomputable def initState (m : CrossFlowFiltrationModel) : SimState :=
  ⟨0, m.initial_volume, 0, 0⟩

/-- The disjunction of the three break conditions checked at the top of each
loop iteration (in the code they are tested in order and the first match
breaks; only which iteration exits is observable, so the exit condition is
their disjunction): casein weight above mwco, concentration target reached,
optional termination criterion firing on the current running time. -/
def shouldStop (m : CrossFlowFiltrationModel) (st : SimState) : Prop :=
  CASEIN_MOLECULAR_WEIGHT > m.mwco ∨
  st.current_concentration ≥ m.concentration_factor ∨
  (match m.termination_criteria with
   | some crit => crit st.current_running_time
   | none => False)

/-- One executed loop body: delta = flow_rate(t) * step / 3600 is added to
the permeate volume and subtracted from the hold-up volume, the running time
advances by the step, and the concentration is recomputed from the new
hold-up volume. -/
noncomputable def stepState (m : CrossFlowFiltrationModel) (time_step : ℝ)
    (st : SimState) : SimState :=
  ⟨st.current_permeate_volume +
      m.calculate_permeate_flow_rate st.current_running_time * time_step / ONE_HOUR,
   st.current_hold_up_volume -
      m.calculate_permeate_flow_rate st.current_running_time * time_step / ONE_HOUR,
   st.current_running_time + time_step,
   m.current_concentration (st.current_hold_up_volume -
      m.calculate_permeate_flow_rate st.current_running_time * time_step / ONE_HOUR)⟩

/-- The record built at loop exit from the current state. -/
noncomputable def recordOf (st : SimState) : CompletedSimulation :=
  ⟨st.current_permeate_volume, st.current_hold_up_volume,
   st.current_concentration, st.current_running_time⟩

/-- The while loop of run_simulation with explicit fuel: none means the loop
has not exited within the given number of iterations.  This version is total
the way Lean division is: at a hold-up volume of exactly zero the
concentration becomes 0 and the loop goes on, where Python raises; the
refinement runSimExAux below keeps that error path. -/
noncomputable def runSimAux (m : CrossFlowFiltrationModel) (time_step : ℝ) :
    ℕ → SimState → Option CompletedSimulation
| 0, _ => none
| fuel + 1, st =>
    if shouldStop m st then some (recordOf st)
    else runSimAux m time_step fuel (stepState m time_step st)

/-- run_simulation(time_step), fuel-indexed: the Python call terminates
without raising and returns r iff run_simulation m time_step fuel = some r
for some fuel and no intermediate hold-up volume is exactly zero;
run_simulation_ex below also represents the raise of the unguarded
division. -/
noncomputable def run_simulation (m : CrossFlowFiltrationModel) (time_step : ℝ)
    (fuel : ℕ) : Option CompletedSimulation :=
  runSimAux m time_step fuel (initState m)

/-- The simulation state after k executed loop bodies (ignoring the exit
checks): the trajectory the loop follows for as long as it keeps running. -/
noncomputable def iterState (m : CrossFlowFiltrationModel) (time_step : ℝ) :
    ℕ → SimState
| 0 => initState m
| k + 1 => stepState m time_step (iterState m time_step k)

/-- The observable outcome of a run_simulation call that exits its loop:
either the CompletedSimulation built at a break, or the raw ZeroDivisionError
that line 178 of core.py raises when the concentration update divides by a
hold-up volume of exactly zero.  That division is the only exception source
inside the loop body once the model is constructed: the resistance model
always receives its time argument and every other operation of the body is
exception-free. -/
inductive RunOutcome where
| completed (r : CompletedSimulation) : RunOutcome
| zeroDivisionError : RunOutcome

/-- The while loop of run_simulation with the error path kept: an iteration
that passes the termination checks raises ZeroDivisionError exactly when the
hold-up volume it has just updated is zero, since current_concentration then
divides by zero; otherwise the state advances as in stepState.  none still
means the loop has not exited within the fuel. -/
noncomputable def runSimExAux (m : CrossFlowFiltrationModel) (time_step : ℝ) :
    ℕ → SimState → Option RunOutcome
| 0, _ => none
| fuel + 1, st =>
    if shouldStop m st then some (RunOutcome.completed (recordOf st))
    else if (stepState m time_step st).current_hold_up_volume = 0 then
      some RunOutcome.zeroDivisionError
    else runSimExAux m time_step fuel (stepState m time_step st)

/-- run_simulation(time_step) with the error path kept, fuel-indexed: the
Python call terminates, by returning a record or by raising
ZeroDivisionError, iff some fuel yields a some outcome. -/
noncomputable def run_simulation_ex (m : CrossFlowFiltrationModel) (time_step : ℝ)
    (fuel : ℕ) : Option RunOutcome :=
  runSimExAux m time_step fuel (initState m)

/-- The model of the unit test setUp in test_cross_flow_model.py: volume 1,
concentration 10, tmp 100000, membrane_area 5, mwco 40000, concentration
factor 2, MaxSimulationTimeTermination at 5 hours. -/
noncomputable def testModel : CrossFlowFiltrationModel :=
  ⟨1, 10, 100000, 5, 40000, 2, some (MaxSimulationTimeTermination (5 * 3600)),
   simplifiedResistance, WATER_VISCOSITY⟩

/-- The configuration of example_usage.py with the mwco raised to 40000 so
that the casein guard does not fire: volume 1, concentration 10, tmp 100000,
membrane_area 222222222, mwco 40000, concentration factor 5, no termination
criterion.  Its first step removes far more than the whole hold-up volume. -/
noncomputable def modelDiv : CrossFlowFiltrationModel :=
  ⟨1, 10, 100000, 222222222, 40000, 5, none, simplifiedResistance, WATER_VISCOSITY⟩

/-- A model whose membrane_area is negative yet whose construction succeeds,
since core.py never validates membrane_area. -/
noncomputable def modelNegArea : CrossFlowFiltrationModel :=
  ⟨1, 10, 100000, -5, 40000, 2, none, simplifiedResistance, WATER_VISCOSITY⟩

/-- The Scenario A model: mwco 10000 is below the casein molecular weight, so
the simulation stops at the very first check. -/
noncomputable def modelA : CrossFlowFiltrationModel :=
  ⟨1, 10, 100000, 5, 10000, 5, none, simplifiedResistance, WATER_VISCOSITY⟩

/-- A validly constructed model whose first step removes exactly the whole
hold-up volume: with membrane area 1300 the initial flux 100000/(0.001 *
0.13e12) = 1/1300 gives a first delta of exactly 1 L against an initial
volume of 1 L, so the concentration update divides by zero and Python raises
ZeroDivisionError, even though a max-time criterion is configured. -/
noncomputable def modelZero : CrossFlowFiltrationModel :=
  ⟨1, 10, 100000, 1300, 40000, 5, some (MaxSimulationTimeTermination (5 * 3600)),
   simplifiedResistance, WATER_VISCOSITY⟩

/-- validate_parameter with only positivity requested reduces to a single
test of value <= 0. -/
theorem validate_pos_eq (param_name : String) (v : ℝ) :
    validate_parameter param_name v true none none =
      if v ≤ 0 then Except.error (SimError.outOfRange param_name) else Except.ok v := by
  by_cases h : v ≤ 0 <;> simp [validate_parameter, h]

/-- validate_parameter with a min and a max bound reduces to the two strict
comparisons of core.py, so values equal to a bound pass. -/
theorem validate_range_eq (param_name : String) (v mn mx : ℝ) :
    validate_parameter param_name v false (some mn) (some mx) =
      if v < mn then Except.error (SimError.outOfRange param_name)
      else if mx < v then Except.error (SimError.outOfRange param_name)
      else Except.ok v := by
  simp [validate_parameter]

/-- When every parameter is inside its validated interval, init returns the
model record with all fields stored verbatim and the default models. -/
theorem init_ok (volume concentration tmp membrane_area mwco concentration_factor : ℝ)
    (crit : Option (ℝ → Prop)) (hvol : 0 < volume) (hconc : 0 < concentration)
    (h1 : 50000 ≤ tmp) (h2 : tmp ≤ 700000) (h3 : 1000 ≤ mwco) (h4 : mwco ≤ 500000)
    (h5 : 2 ≤ concentration_factor) (h6 : concentration_factor ≤ 20) :
    CrossFlowFiltrationModel.init volume concentration tmp membrane_area mwco
        concentration_factor crit =
      Except.ok ⟨volume, concentration, tmp, membrane_area, mwco, concentration_factor,
        crit, simplifiedResistance, WATER_VISCOSITY⟩ := by
  unfold CrossFlowFiltrationModel.init
  rw [validate_pos_eq, validate_pos_eq, validate_range_eq, validate_range_eq, validate_range_eq]
  simp only [TYPICAL_RANGES_TMP, TYPICAL_RANGES_MWCO, TYPICAL_RANGES_Concentration_factor]
  rw [if_neg (not_le.mpr hvol)]
  simp only [Except.bind]
  rw [if_neg (not_le.mpr hconc)]
  simp only [Except.bind]
  rw [if_neg (not_lt.mpr h1)]
  rw [if_neg (not_lt.mpr h2)]
  simp only [Except.bind]
  rw [if_neg (not_lt.mpr h3)]
  rw [if_neg (not_lt.mpr h4)]
  simp only [Except.bind]
  rw [if_neg (not_lt.mpr h5)]
  rw [if_neg (not_lt.mpr h6)]

/-- C7: invoking the SimplifiedResistanceModel resistance calculation without
an elapsed time fails with the MissingInput error (the NotImplementedError of
core.py line 74): no silent default value and no fallback computation from
other quantities is returned. -/
theorem C7_resistance_missing_input :
    SimplifiedResistanceModel.calculate_resistance none =
      Except.error SimError.missingInput := rfl

/-- C9: for every supplied elapsed time t the resistance calculation returns
exactly 0.13e12 + 1.51e12 * t^0.4, and at t = 2 hours it returns
0.13e12 + 1.51e12 * 7200^0.4. -/
theorem C9_resistance_formula :
    (∀ t : ℝ, SimplifiedResistanceModel.calculate_resistance (some t) =
      Except.ok (0.13e12 + 1.51e12 * t ^ (0.4 : ℝ))) ∧
    SimplifiedResistanceModel.calculate_resistance (some (2 * ONE_HOUR)) =
      Except.ok (0.13e12 + 1.51e12 * (7200 : ℝ) ^ (0.4 : ℝ)) := by
  refine ⟨fun t => rfl, ?_⟩
  have h : (2 : ℝ) * ONE_HOUR = 7200 := by norm_num [ONE_HOUR]
  rw [h]
  rfl

/-- C8: for every parameter name and value v, validate_parameter with
positive requested returns v unchanged when v > 0 and fails with the
OutOfRange error carrying that name when v <= 0; it is a pure function, so
there are no other side effects. -/
theorem C8_validate_roundtrip (param_name : String) (v : ℝ) :
    (0 < v → validate_parameter param_name v true none none = Except.ok v) ∧
    (v ≤ 0 → validate_parameter param_name v true none none =
      Except.error (SimError.outOfRange param_name)) := by
  constructor
  · intro hv
    rw [validate_pos_eq, if_neg (not_le.mpr hv)]
  · intro hv
    rw [validate_pos_eq, if_pos hv]

/-- C8 witness: the validation round trip evaluated at the values of the unit
test, 10 and -10. -/
theorem C8_validate_roundtrip_witness :
    validate_parameter ("Test Parameter") 10 true none none = Except.ok 10 ∧
    validate_parameter ("Test Parameter") (-10) true none none =
      Except.error (SimError.outOfRange ("Test Parameter")) :=
  ⟨(C8_validate_roundtrip ("Test Parameter") 10).1 (by norm_num),
   (C8_validate_roundtrip ("Test Parameter") (-10)).2 (by norm_num)⟩

/-- C4: membrane_area is never validated by the constructor of core.py: for
every membrane_area value, including every value at most 0, construction with
otherwise in-range parameters succeeds and stores the value verbatim, instead
of failing with an OutOfRange error. -/
theorem C4_membrane_area_not_validated (a : ℝ) :
    ∃ m : CrossFlowFiltrationModel,
      CrossFlowFiltrationModel.init 1 10 100000 a 40000 2 none = Except.ok m ∧
      m.membrane_area = a := by
  refine ⟨⟨1, 10, 100000, a, 40000, 2, none, simplifiedResistance, WATER_VISCOSITY⟩, ?_, rfl⟩
  exact init_ok 1 10 100000 a 40000 2 none (by norm_num) (by norm_num) (by norm_num)
    (by norm_num) (by norm_num) (by norm_num) (by norm_num) (by norm_num)

/-- A successful construction forces every validated parameter inside its
interval and determines the model record completely. -/
theorem init_ok_inv (volume concentration tmp membrane_area mwco concentration_factor : ℝ)
    (crit : Option (ℝ → Prop)) (m : CrossFlowFiltrationModel)
    (h : CrossFlowFiltrationModel.init volume concentration tmp membrane_area mwco
        concentration_factor crit = Except.ok m) :
    0 < volume ∧ 0 < concentration ∧ 50000 ≤ tmp ∧ tmp ≤ 700000 ∧ 1000 ≤ mwco ∧
      mwco ≤ 500000 ∧ 2 ≤ concentration_factor ∧ concentration_factor ≤ 20 ∧
      m = ⟨volume, concentration, tmp, membrane_area, mwco, concentration_factor, crit,
        simplifiedResistance, WATER_VISCOSITY⟩ := by
  unfold CrossFlowFiltrationModel.init at h
  rw [validate_pos_eq, validate_pos_eq, validate_range_eq, validate_range_eq,
    validate_range_eq] at h
  simp only [TYPICAL_RANGES_TMP, TYPICAL_RANGES_MWCO,
    TYPICAL_RANGES_Concentration_factor] at h
  by_cases hv : volume ≤ 0
  · rw [if_pos hv] at h; simp [Except.bind] at h
  rw [if_neg hv] at h
  simp only [Except.bind] at h
  by_cases hc : concentration ≤ 0
  · rw [if_pos hc] at h; simp [Except.bind] at h
  rw [if_neg hc] at h
  simp only [Except.bind] at h
  by_cases h1 : tmp < 50000
  · rw [if_pos h1] at h; simp [Except.bind] at h
  rw [if_neg h1] at h
  by_cases h2 : (700000 : ℝ) < tmp
  · rw [if_pos h2] at h; simp [Except.bind] at h
  rw [if_neg h2] at h
  simp only [Except.bind] at h
  by_cases h3 : mwco < 1000
  · rw [if_pos h3] at h; simp [Except.bind] at h
  rw [if_neg h3] at h
  by_cases h4 : (500000 : ℝ) < mwco
  · rw [if_pos h4] at h; simp [Except.bind] at h
  rw [if_neg h4] at h
  simp only [Except.bind] at h
  by_cases h5 : concentration_factor < 2
  · rw [if_pos h5] at h; simp [Except.bind] at h
  rw [if_neg h5] at h
  by_cases h6 : (20 : ℝ) < concentration_factor
  · rw [if_pos h6] at h; simp [Except.bind] at h
  rw [if_neg h6] at h
  simp only [Except.bind, Except.ok.injEq] at h
  exact ⟨not_le.mp hv, not_le.mp hc, not_lt.mp h1, not_lt.mp h2, not_lt.mp h3,
    not_lt.mp h4, not_lt.mp h5, not_lt.mp h6, h.symm⟩

/-- Every failure of the constructor is an OutOfRange error: construction
never raises any other kind. -/
theorem init_error_kind (volume concentration tmp membrane_area mwco concentration_factor : ℝ)
    (crit : Option (ℝ → Prop)) (e : SimError)
    (h : CrossFlowFiltrationModel.init volume concentration tmp membrane_area mwco
        concentration_factor crit = Except.error e) :
    ∃ nm, e = SimError.outOfRange nm := by
  unfold CrossFlowFiltrationModel.init at h
  rw [validate_pos_eq, validate_pos_eq, validate_range_eq, validate_range_eq,
    validate_range_eq] at h
  by_cases hv : volume ≤ 0
  · rw [if_pos hv] at h; simp [Except.bind] at h; exact ⟨_, h.symm⟩
  rw [if_neg hv] at h
  simp only [Except.bind] at h
  by_cases hc : concentration ≤ 0
  · rw [if_pos hc] at h; simp [Except.bind] at h; exact ⟨_, h.symm⟩
  rw [if_neg hc] at h
  simp only [Except.bind] at h
  by_cases h1 : tmp < TYPICAL_RANGES_TMP.min
  · rw [if_pos h1] at h; simp [Except.bind] at h; exact ⟨_, h.symm⟩
  rw [if_neg h1] at h
  by_cases h2 : TYPICAL_RANGES_TMP.max < tmp
  · rw [if_pos h2] at h; simp [Except.bind] at h; exact ⟨_, h.symm⟩
  rw [if_neg h2] at h
  simp only [Except.bind] at h
  by_cases h3 : mwco < TYPICAL_RANGES_MWCO.min
  · rw [if_pos h3] at h; simp [Except.bind] at h; exact ⟨_, h.symm⟩
  rw [if_neg h3] at h
  by_cases h4 : TYPICAL_RANGES_MWCO.max < mwco
  · rw [if_pos h4] at h; simp [Except.bind] at h; exact ⟨_, h.symm⟩
  rw [if_neg h4] at h
  simp only [Except.bind] at h
  by_cases h5 : concentration_factor < TYPICAL_RANGES_Concentration_factor.min
  · rw [if_pos h5] at h; simp [Except.bind] at h; exact ⟨_, h.symm⟩
  rw [if_neg h5] at h
  by_cases h6 : TYPICAL_RANGES_Concentration_factor.max < concentration_factor
  · rw [if_pos h6] at h; simp [Except.bind] at h; exact ⟨_, h.symm⟩
  rw [if_neg h6] at h
  simp [Except.bind] at h

/-- C10: with volume and concentration positive, construction succeeds
exactly when tmp lies in [50000, 700000], mwco in [1000, 500000] and the
concentration factor in [2, 20] (bounds inclusive, since the code rejects
only strict violations), and every constructor failure carries the OutOfRange
error kind. -/
theorem C10_validation_intervals
    (volume concentration tmp membrane_area mwco concentration_factor : ℝ)
    (crit : Option (ℝ → Prop)) (hvol : 0 < volume) (hconc : 0 < concentration) :
    ((∃ m, CrossFlowFiltrationModel.init volume concentration tmp membrane_area mwco
        concentration_factor crit = Except.ok m) ↔
      (50000 ≤ tmp ∧ tmp ≤ 700000 ∧ 1000 ≤ mwco ∧ mwco ≤ 500000 ∧
       2 ≤ concentration_factor ∧ concentration_factor ≤ 20)) ∧
    (∀ e, CrossFlowFiltrationModel.init volume concentration tmp membrane_area mwco
        concentration_factor crit = Except.error e → ∃ nm, e = SimError.outOfRange nm) := by
  constructor
  · constructor
    · rintro ⟨m, hm⟩
      obtain ⟨-, -, a1, a2, a3, a4, a5, a6, -⟩ :=
        init_ok_inv volume concentration tmp membrane_area mwco concentration_factor crit m hm
      exact ⟨a1, a2, a3, a4, a5, a6⟩
    · rintro ⟨a1, a2, a3, a4, a5, a6⟩
      exact ⟨_, init_ok volume concentration tmp membrane_area mwco concentration_factor
        crit hvol hconc a1 a2 a3 a4 a5 a6⟩
  · intro e he
    exact init_error_kind volume concentration tmp membrane_area mwco concentration_factor
      crit e he

/-- C10 witness: at volume 1 and concentration 10 the equivalence holds for
the inclusive bound values tmp = 50000, mwco = 500000, factor = 2. -/
theorem C10_validation_intervals_witness :
    0 < (1 : ℝ) ∧ 0 < (10 : ℝ) ∧
    (((∃ m, CrossFlowFiltrationModel.init 1 10 50000 5 500000 2 none = Except.ok m) ↔
      (50000 ≤ (50000 : ℝ) ∧ (50000 : ℝ) ≤ 700000 ∧ 1000 ≤ (500000 : ℝ) ∧
       (500000 : ℝ) ≤ 500000 ∧ 2 ≤ (2 : ℝ) ∧ (2 : ℝ) ≤ 20)) ∧
    (∀ e, CrossFlowFiltrationModel.init 1 10 50000 5 500000 2 none = Except.error e →
      ∃ nm, e = SimError.outOfRange nm)) :=
  ⟨by norm_num, by norm_num,
   C10_validation_intervals 1 10 50000 5 500000 2 none (by norm_num) (by norm_num)⟩

/-- Each executed loop body preserves the mass balance: the permeate delta is
added to one volume and subtracted from the other. -/
theorem massBalance_step (m : CrossFlowFiltrationModel) (time_step : ℝ) (st : SimState)
    (hst : st.current_permeate_volume + st.current_hold_up_volume = m.initial_volume) :
    (stepState m time_step st).current_permeate_volume +
      (stepState m time_step st).current_hold_up_volume = m.initial_volume := by
  simp only [stepState]
  linarith

/-- Mass balance along the whole trajectory of executed steps. -/
theorem massBalance_iter (m : CrossFlowFiltrationModel) (time_step : ℝ) :
    ∀ k, (iterState m time_step k).current_permeate_volume +
      (iterState m time_step k).current_hold_up_volume = m.initial_volume := by
  intro k
  induction k with
  | zero => simp [iterState, initState]
  | succ n ih => exact massBalance_step m time_step (iterState m time_step n) ih

/-- Mass balance is carried from any balanced state into the returned
record. -/
theorem massBalance_runAux (m : CrossFlowFiltrationModel) (time_step : ℝ) :
    ∀ fuel (st : SimState),
      st.current_permeate_volume + st.current_hold_up_volume = m.initial_volume →
      ∀ r, runSimAux m time_step fuel st = some r →
        r.final_permeate_volume + r.final_retentate_volume = m.initial_volume := by
  intro fuel
  induction fuel with
  | zero => intro st hst r hr; simp [runSimAux] at hr
  | succ n ih =>
    intro st hst r hr
    rw [runSimAux] at hr
    by_cases hstop : shouldStop m st
    · rw [if_pos hstop] at hr
      obtain rfl := Option.some.inj hr
      simpa [recordOf] using hst
    · rw [if_neg hstop] at hr
      exact ih (stepState m time_step st) (massBalance_step m time_step st hst) r hr

/-- C3: for every model and step duration, at every iteration of the
simulation loop the cumulative permeate volume plus the hold-up volume equals
the initial volume, and the same holds of the returned record; in the
real-number model the balance is exact, hence within any floating-point
tolerance. -/
theorem C3_mass_balance (m : CrossFlowFiltrationModel) (time_step : ℝ) :
    (∀ k, (iterState m time_step k).current_permeate_volume +
        (iterState m time_step k).current_hold_up_volume = m.initial_volume) ∧
    (∀ fuel r, run_simulation m time_step fuel = some r →
        r.final_permeate_volume + r.final_retentate_volume = m.initial_volume) :=
  ⟨massBalance_iter m time_step,
   fun fuel r hr =>
     massBalance_runAux m time_step fuel (initState m) (by simp [initState]) r hr⟩

/-- C3 witness: the Scenario A run stops immediately and its record balances:
permeate 0 plus retentate 1 equals the initial volume 1. -/
theorem C3_mass_balance_witness :
    run_simulation modelA 3600 1 = some (recordOf (initState modelA)) ∧
    (recordOf (initState modelA)).final_permeate_volume +
      (recordOf (initState modelA)).final_retentate_volume = modelA.initial_volume := by
  have hstop : shouldStop modelA (initState modelA) := by
    left
    norm_num [CASEIN_MOLECULAR_WEIGHT, modelA]
  have hrun : run_simulation modelA 3600 1 = some (recordOf (initState modelA)) := by
    rw [run_simulation, runSimAux, if_pos hstop]
  exact ⟨hrun, (C3_mass_balance modelA 3600).2 1 _ hrun⟩

/-- C5: a model whose mwco is 10000 Da, below the casein reference weight of
25107 Da, makes run_simulation exit at the very first termination check for
any positive step duration: the returned record has permeate volume 0,
retentate volume equal to the initial volume, concentration 0 and elapsed
time 0, and one loop iteration of fuel suffices. -/
theorem C5_mwco_guard (m : CrossFlowFiltrationModel) (time_step : ℝ) (fuel : ℕ)
    (hm : m.mwco = 10000) (hstep : 0 < time_step) (hfuel : 1 ≤ fuel) :
    run_simulation m time_step fuel = some ⟨0, m.initial_volume, 0, 0⟩ := by
  obtain ⟨n, rfl⟩ : ∃ n, fuel = n + 1 :=
    ⟨fuel - 1, (Nat.succ_pred_eq_of_pos hfuel).symm⟩
  have hstop : shouldStop m (initState m) := by
    left
    rw [hm]
    norm_num [CASEIN_MOLECULAR_WEIGHT]
  rw [run_simulation, runSimAux, if_pos hstop]
  rfl

/-- C5 witness: the Scenario A configuration with a one-hour step. -/
theorem C5_mwco_guard_witness :
    modelA.mwco = 10000 ∧ 0 < (3600 : ℝ) ∧ 1 ≤ 1 ∧
    run_simulation modelA 3600 1 = some ⟨0, modelA.initial_volume, 0, 0⟩ :=
  ⟨rfl, by norm_num, le_refl 1,
   C5_mwco_guard modelA 3600 1 rfl (by norm_num) (le_refl 1)⟩

/-- The simplified resistance is strictly positive at every nonnegative
elapsed time. -/
theorem simplifiedResistance_pos (t : ℝ) (ht : 0 ≤ t) : 0 < simplifiedResistance t := by
  unfold simplifiedResistance
  have h1 : (0 : ℝ) ≤ t ^ SimplifiedResistanceModel.TIME_EXPONENT := Real.rpow_nonneg ht _
  have h2 : (0 : ℝ) ≤ SimplifiedResistanceModel.TIME_COEFFICIENT_B *
      t ^ SimplifiedResistanceModel.TIME_EXPONENT :=
    mul_nonneg (by norm_num [SimplifiedResistanceModel.TIME_COEFFICIENT_B]) h1
  have h3 : (0 : ℝ) < SimplifiedResistanceModel.TIME_COEFFICIENT_A := by
    norm_num [SimplifiedResistanceModel.TIME_COEFFICIENT_A]
  linarith

/-- With the default resistance and viscosity models and a positive tmp, the
flux is strictly positive at every nonnegative elapsed time. -/
theorem defaultFlux_pos (m : CrossFlowFiltrationModel)
    (hres : m.resistance_model = simplifiedResistance)
    (hvisc : m.viscosity_model = WATER_VISCOSITY)
    (htmp : 0 < m.tmp) (t : ℝ) (ht : 0 ≤ t) : 0 < m.calculate_flux t := by
  rw [CrossFlowFiltrationModel.calculate_flux, hres, hvisc]
  exact div_pos htmp
    (mul_pos (by norm_num [WATER_VISCOSITY]) (simplifiedResistance_pos t ht))

/-- The running time after k executed steps is k times the step duration. -/
theorem iter_time_eq (m : CrossFlowFiltrationModel) (time_step : ℝ) :
    ∀ k : ℕ, (iterState m time_step k).current_running_time = k * time_step := by
  intro k
  induction k with
  | zero => simp [iterState, initState]
  | succ n ih =>
    simp only [iterState, stepState, ih]
    push_cast
    ring

/-- C6 (amended): for a model carrying the default resistance and viscosity
models, a positive tmp and a nonnegative membrane area, and any positive step
duration, the running time and the cumulative permeate volume never decrease
from one loop iteration to the next, and the hold-up volume does not increase
at any step whose flux is positive. -/
theorem C6_monotonicity (m : CrossFlowFiltrationModel) (time_step : ℝ)
    (hres : m.resistance_model = simplifiedResistance)
    (hvisc : m.viscosity_model = WATER_VISCOSITY)
    (htmp : 0 < m.tmp) (harea : 0 ≤ m.membrane_area) (hstep : 0 < time_step) :
    ∀ k : ℕ,
      (iterState m time_step k).current_running_time ≤
        (iterState m time_step (k + 1)).current_running_time ∧
      (iterState m time_step k).current_permeate_volume ≤
        (iterState m time_step (k + 1)).current_permeate_volume ∧
      (0 < m.calculate_flux (iterState m time_step k).current_running_time →
        (iterState m time_step (k + 1)).current_hold_up_volume ≤
          (iterState m time_step k).current_hold_up_volume) := by
  intro k
  have ht : 0 ≤ (iterState m time_step k).current_running_time := by
    rw [iter_time_eq]
    positivity
  have hflux : 0 < m.calculate_flux (iterState m time_step k).current_running_time :=
    defaultFlux_pos m hres hvisc htmp _ ht
  have hhour : (0 : ℝ) < ONE_HOUR := by norm_num [ONE_HOUR]
  have hdelta : 0 ≤ m.calculate_permeate_flow_rate
      (iterState m time_step k).current_running_time * time_step / ONE_HOUR := by
    rw [CrossFlowFiltrationModel.calculate_permeate_flow_rate]
    exact div_nonneg (mul_nonneg (mul_nonneg hflux.le harea) hstep.le) hhour.le
  refine ⟨?_, ?_, fun _ => ?_⟩ <;> simp only [iterState, stepState] <;> linarith

/-- C6 witness: the unit-test model with a one-hour step, at the first
iteration. -/
theorem C6_monotonicity_witness :
    0 < (3600 : ℝ) ∧
    ((iterState testModel 3600 0).current_running_time ≤
        (iterState testModel 3600 (0 + 1)).current_running_time ∧
      (iterState testModel 3600 0).current_permeate_volume ≤
        (iterState testModel 3600 (0 + 1)).current_permeate_volume ∧
      (0 < testModel.calculate_flux (iterState testModel 3600 0).current_running_time →
        (iterState testModel 3600 (0 + 1)).current_hold_up_volume ≤
          (iterState testModel 3600 0).current_hold_up_volume)) :=
  ⟨by norm_num,
   C6_monotonicity testModel 3600 rfl rfl (by norm_num [testModel])
     (by norm_num [testModel]) (by norm_num) 0⟩

/-- C6 counterexample: membrane_area is not validated, so the model with
membrane area -5 is validly constructed, its first loop iteration really
executes (no termination check fires), and across that iteration the
cumulative permeate volume strictly decreases. -/
theorem C6_monotonicity_counterexample :
    CrossFlowFiltrationModel.init 1 10 100000 (-5) 40000 2 none = Except.ok modelNegArea ∧
    ¬ shouldStop modelNegArea (initState modelNegArea) ∧
    (iterState modelNegArea 3600 1).current_permeate_volume <
      (iterState modelNegArea 3600 0).current_permeate_volume := by
  refine ⟨?_, ?_, ?_⟩
  · have h := init_ok 1 10 100000 (-5) 40000 2 none (by norm_num) (by norm_num)
      (by norm_num) (by norm_num) (by norm_num) (by norm_num) (by norm_num) (by norm_num)
    exact h
  · simp only [shouldStop, initState, modelNegArea]
    norm_num [CASEIN_MOLECULAR_WEIGHT]
  · have h0 : (0 : ℝ) ^ SimplifiedResistanceModel.TIME_EXPONENT = 0 :=
      Real.zero_rpow (by norm_num [SimplifiedResistanceModel.TIME_EXPONENT])
    simp only [iterState, stepState, initState,
      CrossFlowFiltrationModel.calculate_permeate_flow_rate,
      CrossFlowFiltrationModel.calculate_flux, modelNegArea, simplifiedResistance,
      WATER_VISCOSITY, ONE_HOUR, h0]
    norm_num [SimplifiedResistanceModel.TIME_COEFFICIENT_A,
      SimplifiedResistanceModel.TIME_COEFFICIENT_B]

/-- A state whose running time has reached the configured maximum makes the
max-time criterion fire. -/
theorem shouldStop_of_max (m : CrossFlowFiltrationModel) (max_time : ℝ)
    (hcrit : m.termination_criteria = some (MaxSimulationTimeTermination max_time))
    (st : SimState) (hst : max_time ≤ st.current_running_time) :
    shouldStop m st := by
  have hm : MaxSimulationTimeTermination max_time st.current_running_time := hst
  simp only [shouldStop, hcrit]
  exact Or.inr (Or.inr hm)

/-- Once the configured maximum time is within reach of the remaining fuel,
a model equipped with MaxSimulationTimeTermination exits the loop with the
error path kept: it breaks at a termination check or raises at a zero
hold-up volume. -/
theorem runExAux_terminates_of_max (m : CrossFlowFiltrationModel) (time_step max_time : ℝ)
    (hcrit : m.termination_criteria = some (MaxSimulationTimeTermination max_time)) :
    ∀ (n : ℕ) (st : SimState),
      max_time ≤ st.current_running_time + (n : ℝ) * time_step →
      ∃ o, runSimExAux m time_step (n + 1) st = some o := by
  intro n
  induction n with
  | zero =>
    intro st hst
    have hstop : shouldStop m st :=
      shouldStop_of_max m max_time hcrit st (by simpa using hst)
    exact ⟨RunOutcome.completed (recordOf st), by rw [runSimExAux, if_pos hstop]⟩
  | succ n ih =>
    intro st hst
    by_cases hstop : shouldStop m st
    · exact ⟨RunOutcome.completed (recordOf st), by rw [runSimExAux, if_pos hstop]⟩
    · by_cases hz : (stepState m time_step st).current_hold_up_volume = 0
      · exact ⟨RunOutcome.zeroDivisionError, by rw [runSimExAux, if_neg hstop, if_pos hz]⟩
      · have heq : runSimExAux m time_step (n + 1 + 1) st =
            runSimExAux m time_step (n + 1) (stepState m time_step st) := by
          rw [runSimExAux, if_neg hstop, if_neg hz]
        rw [heq]
        apply ih
        simp only [stepState]
        push_cast at hst ⊢
        linarith

/-- C2 (amended): every model equipped with a MaxSimulationTimeTermination
criterion terminates for every positive step duration: after a finite number
of loop iterations run_simulation exits, returning a CompletedSimulation or
failing with the ZeroDivisionError of the unguarded concentration update. -/
theorem C2_max_time_terminates (m : CrossFlowFiltrationModel) (time_step max_time : ℝ)
    (hcrit : m.termination_criteria = some (MaxSimulationTimeTermination max_time))
    (hstep : 0 < time_step) :
    ∃ fuel o, run_simulation_ex m time_step fuel = some o := by
  obtain ⟨n, hn⟩ := exists_nat_ge (max_time / time_step)
  have hmax : max_time ≤ (initState m).current_running_time + (n : ℝ) * time_step := by
    rw [div_le_iff₀ hstep] at hn
    simp only [initState]
    linarith
  obtain ⟨o, ho⟩ := runExAux_terminates_of_max m time_step max_time hcrit n
    (initState m) hmax
  exact ⟨n + 1, o, ho⟩

/-- C2 witness: the unit-test model with its five-hour maximum and a one-hour
step exits its loop. -/
theorem C2_max_time_terminates_witness :
    testModel.termination_criteria = some (MaxSimulationTimeTermination (5 * 3600)) ∧
    0 < (3600 : ℝ) ∧
    ∃ fuel o, run_simulation_ex testModel 3600 fuel = some o :=
  ⟨rfl, by norm_num, C2_max_time_terminates testModel 3600 (5 * 3600) rfl (by norm_num)⟩

/-- The failing disjunct of the amended C2 is real and matches the program:
for the validly constructed modelZero the first loop iteration passes every
termination check, its step drives the hold-up volume to exactly zero, and
the run exits with ZeroDivisionError rather than a CompletedSimulation, just
as core.py line 178 raises on this input. -/
theorem runEx_zero_division_modelZero :
    run_simulation_ex modelZero 3600 1 = some RunOutcome.zeroDivisionError := by
  have hstop : ¬ shouldStop modelZero (initState modelZero) := by
    simp only [shouldStop, initState, modelZero]
    push_neg
    refine ⟨by norm_num [CASEIN_MOLECULAR_WEIGHT], by norm_num, ?_⟩
    norm_num [MaxSimulationTimeTermination]
  have h0 : (0 : ℝ) ^ SimplifiedResistanceModel.TIME_EXPONENT = 0 :=
    Real.zero_rpow (by norm_num [SimplifiedResistanceModel.TIME_EXPONENT])
  have hz : (stepState modelZero 3600 (initState modelZero)).current_hold_up_volume = 0 := by
    simp only [stepState, initState, CrossFlowFiltrationModel.calculate_permeate_flow_rate,
      CrossFlowFiltrationModel.calculate_flux, modelZero, simplifiedResistance,
      WATER_VISCOSITY, ONE_HOUR, h0]
    norm_num [SimplifiedResistanceModel.TIME_COEFFICIENT_A,
      SimplifiedResistanceModel.TIME_COEFFICIENT_B]
  rw [run_simulation_ex, runSimExAux, if_neg hstop, if_pos hz]

/-- No termination check of the divergent configuration fires while the
concentration is below the target 5: the casein guard is statically false and
there is no termination criterion. -/
theorem notStop_modelDiv (st : SimState) (hconc : st.current_concentration < 5) :
    ¬ shouldStop modelDiv st := by
  simp only [shouldStop, modelDiv]
  push_neg
  exact ⟨by norm_num [CASEIN_MOLECULAR_WEIGHT], hconc, not_false⟩

/-- A step of the divergent configuration keeps the hold-up volume negative,
the concentration negative and the time nonnegative. -/
theorem stepBad_modelDiv (st : SimState) (ht : 0 ≤ st.current_running_time)
    (hh : st.current_hold_up_volume < 0) :
    (stepState modelDiv 3600 st).current_hold_up_volume < 0 ∧
    (stepState modelDiv 3600 st).current_concentration < 0 ∧
    0 ≤ (stepState modelDiv 3600 st).current_running_time := by
  have hflux : 0 < modelDiv.calculate_flux st.current_running_time :=
    defaultFlux_pos modelDiv rfl rfl (by norm_num [modelDiv]) _ ht
  have harea : (0 : ℝ) < modelDiv.membrane_area := by norm_num [modelDiv]
  have hdelta : 0 ≤ modelDiv.calculate_permeate_flow_rate st.current_running_time *
      3600 / ONE_HOUR := by
    rw [CrossFlowFiltrationModel.calculate_permeate_flow_rate]
    exact div_nonneg (mul_nonneg (mul_nonneg hflux.le harea.le) (by norm_num))
      (by norm_num [ONE_HOUR])
  refine ⟨?_, ?_, ?_⟩
  · simp only [stepState]
    linarith
  · simp only [stepState, CrossFlowFiltrationModel.current_concentration]
    apply div_neg_of_pos_of_neg
    · norm_num [modelDiv]
    · linarith
  · simp only [stepState]
    linarith

/-- The very first executed step of the divergent configuration removes more
than the whole hold-up volume: the state after it has negative hold-up,
negative concentration and nonnegative time. -/
theorem state1Bad_modelDiv :
    (stepState modelDiv 3600 (initState modelDiv)).current_hold_up_volume < 0 ∧
    (stepState modelDiv 3600 (initState modelDiv)).current_concentration < 0 ∧
    0 ≤ (stepState modelDiv 3600 (initState modelDiv)).current_running_time := by
  have h0 : (0 : ℝ) ^ SimplifiedResistanceModel.TIME_EXPONENT = 0 :=
    Real.zero_rpow (by norm_num [SimplifiedResistanceModel.TIME_EXPONENT])
  have hh : (stepState modelDiv 3600 (initState modelDiv)).current_hold_up_volume < 0 := by
    simp only [stepState, initState, CrossFlowFiltrationModel.calculate_permeate_flow_rate,
      CrossFlowFiltrationModel.calculate_flux, modelDiv, simplifiedResistance,
      WATER_VISCOSITY, ONE_HOUR, h0]
    norm_num [SimplifiedResistanceModel.TIME_COEFFICIENT_A,
      SimplifiedResistanceModel.TIME_COEFFICIENT_B]
  refine ⟨hh, ?_, ?_⟩
  · simp only [stepState, CrossFlowFiltrationModel.current_concentration]
    apply div_neg_of_pos_of_neg
    · norm_num [modelDiv]
    · have := hh
      simp only [stepState] at this
      exact this
  · simp only [stepState, initState]
    norm_num

/-- From any state with negative hold-up, negative concentration and
nonnegative time, the loop of the divergent configuration neither breaks nor
raises, whatever the fuel: every termination check stays false and the
hold-up volume stays strictly negative, never the zero that would raise. -/
theorem runExAux_none_modelDiv :
    ∀ fuel (st : SimState), st.current_hold_up_volume < 0 →
      st.current_concentration < 0 → 0 ≤ st.current_running_time →
      runSimExAux modelDiv 3600 fuel st = none := by
  intro fuel
  induction fuel with
  | zero => intro st _ _ _; rw [runSimExAux]
  | succ n ih =>
    intro st hh hc ht
    obtain ⟨hh2, hc2, ht2⟩ := stepBad_modelDiv st ht hh
    rw [runSimExAux, if_neg (notStop_modelDiv st (by linarith)), if_neg (ne_of_lt hh2)]
    exact ih (stepState modelDiv 3600 st) hh2 hc2 ht2

/-- C2 counterexample: the divergent configuration is validly constructed
(every validated parameter in range, no termination criterion), yet with the
default one-hour step its loop neither returns a CompletedSimulation nor
fails, whatever the fuel: after the first step the hold-up volume is strictly
negative (so the zero-division raise never happens), the concentration stays
negative, and no termination condition ever becomes true. -/
theorem C2_termination_counterexample :
    CrossFlowFiltrationModel.init 1 10 100000 222222222 40000 5 none =
      Except.ok modelDiv ∧
    ¬ ∃ fuel o, run_simulation_ex modelDiv 3600 fuel = some o := by
  constructor
  · exact init_ok 1 10 100000 222222222 40000 5 none (by norm_num) (by norm_num)
      (by norm_num) (by norm_num) (by norm_num) (by norm_num) (by norm_num) (by norm_num)
  · rintro ⟨fuel, o, ho⟩
    match fuel with
    | 0 => rw [run_simulation_ex, runSimExAux] at ho; exact Option.noConfusion ho
    | n + 1 =>
      obtain ⟨hh, hc, ht⟩ := state1Bad_modelDiv
      rw [run_simulation_ex, runSimExAux,
        if_neg (notStop_modelDiv (initState modelDiv) (by norm_num [initState])),
        if_neg (ne_of_lt hh)] at ho
      rw [runExAux_none_modelDiv n (stepState modelDiv 3600 (initState modelDiv)) hh hc ht] at ho
      exact Option.noConfusion ho

/-- C1: the concentration update of core.py is unguarded.  In the validly
constructed divergent configuration the loop really runs (no check fires at
the initial state), its first step drives the hold-up volume negative, and
current_concentration then silently returns a negative number while the loop
again fails to stop: no ArithmeticDegenerate condition exists anywhere in the
code, and at a hold-up volume of exactly zero Python would raise a raw
ZeroDivisionError instead. -/
theorem C1_unguarded_concentration :
    ¬ shouldStop modelDiv (initState modelDiv) ∧
    (iterState modelDiv 3600 1).current_hold_up_volume < 0 ∧
    modelDiv.current_concentration (iterState modelDiv 3600 1).current_hold_up_volume < 0 ∧
    ¬ shouldStop modelDiv (iterState modelDiv 3600 1) := by
  obtain ⟨hh, hc, ht⟩ := state1Bad_modelDiv
  have hiter : iterState modelDiv 3600 1 = stepState modelDiv 3600 (initState modelDiv) := by
    simp [iterState]
  refine ⟨notStop_modelDiv (initState modelDiv) (by norm_num [initState]), ?_, ?_, ?_⟩
  · rw [hiter]; exact hh
  · rw [hiter]
    have hconc : (stepState modelDiv 3600 (initState modelDiv)).current_concentration < 0 := hc
    simp only [stepState, CrossFlowFiltrationModel.current_concentration] at hconc ⊢
    exact hconc
  · rw [hiter]
    exact notStop_modelDiv _ (by linarith)
